import Mathlib

/-!
Verification of the transform-and-aggregate engine of the iim-big-data
pipeline.  The Python sources under src/flows are shallowly embedded as
executable Lean definitions: pandas DataFrames become lists of records,
timestamps become an explicit civil-calendar date type (or plain integer
day indexes where only ordering matters), NaN/NaT cells become Option
fields, and float arithmetic is carried out exactly over the rationals.
Python code that raises is embedded as an Option-returning function.
-/

namespace Pipeline

/-! ## Calendar model

Purchase timestamps carry year, month and day.  The pipeline only ever
needs day granularity (recency differences use Timedelta.days, week and
month keys are derived from the date part), so hours are not modelled.
-/

structure Date where
  y : Int
  m : Int
  d : Int
deriving DecidableEq

/-- Gregorian leap-year test. -/
def isLeap (y : Int) : Bool :=
  y % 4 == 0 && (y % 100 != 0 || y % 400 == 0)

/-- Lengths of the twelve months. -/
def monthLengths (leap : Bool) : List Int :=
  [31, if leap then 29 else 28, 31, 30, 31, 30, 31, 31, 30, 31, 30, 31]

/-- 1-based ordinal day of the year of a date. -/
def dayOfYear (dt : Date) : Int :=
  ((monthLengths (isLeap dt.y)).take (dt.m - 1).toNat).sum + dt.d

/-- Days since 1970-01-01 (the civil-from-days algorithm used by every
standard date library; `pd.Timestamp` stores exactly this, at ns scale). -/
def daysFromCivil (dt : Date) : Int :=
  let yy := if dt.m ≤ 2 then dt.y - 1 else dt.y
  let era := (if yy ≥ 0 then yy else yy - 399) / 400
  let yoe := yy - era * 400
  let mp := (dt.m + 9) % 12
  let doy := (153 * mp + 2) / 5 + dt.d - 1
  let doe := yoe * 365 + yoe / 4 - yoe / 100 + doy
  era * 146097 + doe - 719468

/-- ISO day of week: Monday = 1 .. Sunday = 7 (1970-01-01 was a Thursday). -/
def isoDow (dt : Date) : Int :=
  (daysFromCivil dt + 3) % 7 + 1

/-- Number of ISO weeks in a year (52 or 53); standard closed form for
years in the proleptic Gregorian calendar with positive year numbers
(pandas timestamps live in 1677..2262, where Int truncated division
agrees with floor division). -/
def isoWeeksInYear (y : Int) : Int :=
  let p : Int → Int := fun x => (x + x / 4 - x / 100 + x / 400) % 7
  if p y = 4 ∨ p (y - 1) = 3 then 53 else 52

/-- ISO (week-based year, week number) of a date, as returned by
`Timestamp.isocalendar()`. -/
def isoWeekYear (dt : Date) : Int × Int :=
  let w := (dayOfYear dt - isoDow dt + 10) / 7
  if w < 1 then (dt.y - 1, isoWeeksInYear (dt.y - 1))
  else if w > isoWeeksInYear dt.y then (dt.y + 1, 1)
  else (dt.y, w)

/-- `str.zfill(2)` on a (positive) integer rendered in decimal. -/
def zfill2 (n : Int) : String :=
  if n < 10 then "0" ++ toString n else toString n

/-- The `annee_semaine` column of `create_fact_achats`
(src/flows/aggregations/fact_tables.py, lines 44-47): the calendar year
column `annee` (= `dt.year`) concatenated with the ISO week number
column `semaine_annee` (= `dt.isocalendar().week`), zero-filled to two
digits. -/
def annee_semaine (dt : Date) : String :=
  toString dt.y ++ "-W" ++ zfill2 (isoWeekYear dt).2

/-- The week key demanded by the specification: both the week number and
the year are taken from the ISO calendar of the purchase date. -/
def annee_semaine_iso (dt : Date) : String :=
  toString (isoWeekYear dt).1 ++ "-W" ++ zfill2 (isoWeekYear dt).2

/-! ## Raw purchases and the declared-schema cleaning pipeline
(src/flows/transformations/data_cleaning.py)

A raw purchase row after `normalize_data_types`: every declared column is
either a typed value or a missing cell (None models NaN/NaT, which is
what `errors='coerce'` produces for unparseable entries).  Timestamps
here are plain day indexes, since the cleaning stage only compares them
with the run time. -/

structure AchatRow where
  id_achat : Option Int
  id_client : Option Int
  date_achat : Option Int
  montant : Option Rat
  produit : Option String
deriving DecidableEq

/-- `remove_duplicates(df, subset=[k], keep="first")`: keep the first
occurrence of every key value (pandas counts NaN keys as duplicates of
each other, which the Option-valued key reproduces). -/
def removeDuplicatesBy {α κ : Type} [DecidableEq κ] (key : α → κ) : List α → List κ → List α
  | [], _ => []
  | a :: t, seen =>
      if key a ∈ seen then removeDuplicatesBy key t seen
      else a :: removeDuplicatesBy key t (key a :: seen)

/-- `standardize_dates` (lines 66-77) on the single declared date column:
after the coercion to datetime, the frame is filtered by
`df[col] <= today`.  A NaT cell compares False against every timestamp
in pandas, so rows whose date failed to parse are dropped here together
with the strictly-future ones. -/
def standardize_dates (rows : List AchatRow) (today : Int) : List AchatRow :=
  rows.filter fun r =>
    match r.date_achat with
    | some d => decide (d ≤ today)
    | none => false

/-- `handle_missing_values(strategy="drop")` on the critical columns of a
purchase row. -/
def dropCriticalNulls (rows : List AchatRow) : List AchatRow :=
  rows.filter fun r =>
    r.id_client.isSome && r.date_achat.isSome && r.montant.isSome

/-- `clean_achats_data` (lines 194-251).  Step 1 (type normalisation) is
the typed representation of the input itself; steps 2-7 follow the
source line by line.  `pd.Timestamp.now()` is passed in as `today`. -/
def clean_achats_data (rows : List AchatRow) (valid_client_ids : Option (List Int))
    (today : Int) : List AchatRow :=
  -- 2. drop duplicates on the primary key id_achat, keeping the first
  let s2 := removeDuplicatesBy (fun r : AchatRow => r.id_achat) rows []
  -- 3. standardise the date column (also drops NaT and future rows)
  let s3 := standardize_dates s2 today
  -- 4. drop rows with a missing critical field
  let s4 := dropCriticalNulls s3
  -- 5. keep amounts in (0, 10000] (NaN amounts compare False in pandas)
  let s5 := s4.filter fun r =>
    match r.montant with
    | some m => decide (0 < m) && decide (m ≤ 10000)
    | none => false
  -- 6. referential integrity against the supplied client ids (NaN isin is False)
  let s6 := match valid_client_ids with
    | some ids => s5.filter fun r : AchatRow =>
        match r.id_client with
        | some c => decide (c ∈ ids)
        | none => false
    | none => s5
  -- 7. fill missing produit with "UNKNOWN"
  s6.map fun r : AchatRow => { r with produit := some (r.produit.getD "UNKNOWN") }

/-! ## The fact table

A row of FACT_ACHATS as produced by `create_fact_achats`: the cleaned
purchase joined (left) with the customer attributes.  Only the columns
the verified aggregators read are carried; the derived temporal columns
(`annee`, `mois`, `annee_mois`, `semaine_annee`, ...) are recomputed
from `date_achat` exactly where the source derives them from it. -/

structure FactRow where
  id_achat : Int
  id_client : Int
  date_achat : Date
  date_inscription : Option Date
  montant : Rat
  produit : String
  pays : String
deriving DecidableEq

/-- Day index of a purchase timestamp. -/
def toDays (dt : Date) : Int := daysFromCivil dt

/-- Maximum of a list of integers (used only on the nonempty per-group
lists a pandas groupby aggregates over). -/
def maxD (l : List Int) : Int := l.foldr max (l.headD 0)

/-- Lexicographic order on (year, month) keys.  `annee_mois` is the
string `to_period('M').astype(str)` = "YYYY-MM"; its lexicographic
string order coincides with this pair order for every pandas-represent-
able timestamp (years 1677..2262 print with exactly four digits and
zero-padded months). -/
def monthLe (a b : Int × Int) : Prop :=
  a.1 < b.1 ∨ (a.1 = b.1 ∧ a.2 ≤ b.2)

instance : DecidableRel monthLe := fun a b => by
  unfold monthLe; infer_instance

/-- Sorted list of distinct keys of a column, as `groupby(sort=True)`
enumerates the groups. -/
def sortedKeysInt (l : List Int) : List Int :=
  List.insertionSort (· ≤ ·) l.dedup

/-! ## RFM segmentation (src/flows/aggregations/rfm_segmentation.py)

The 1..5 score bands.  `pd.qcut(x, q=5, labels, duplicates='drop')`
computes the six quantile edges of the column (numpy linear
interpolation), drops duplicate edges, and — since five labels were
passed — raises ValueError when edges were dropped; the source catches
that and falls back to `pd.cut(x, bins=5, labels)`, five equal-width
bins over [min, max] (the range padded by one part in a thousand on
each side when min = max).  A value v falls in bin i when it lies in
(e_i, e_(i+1)]; the number of interior edges strictly below v computes
exactly this index, and makes the pandas adjustment of the outermost
edges (which only ever widens the covered range) immaterial. -/

/-- Ascending sort of a rational column (np.sort). -/
def sortedQ (l : List Rat) : List Rat := List.insertionSort (· ≤ ·) l

/-- Numpy linear-interpolation quantile at fraction q of sorted data:
position h = q(n-1), value x⌊h⌋ + (h-⌊h⌋)(x⌊h⌋₊₁ - x⌊h⌋). -/
def quantileAt (xs : List Rat) (q : Rat) : Rat :=
  let h : Rat := q * ((xs.length : Rat) - 1)
  let i : Nat := h.floor.toNat
  let lo := xs.getD i 0
  let hi := xs.getD (i + 1) lo
  lo + (h - (h.floor : Rat)) * (hi - lo)

/-- The six qcut quantile edges of a column. -/
def qcutEdges (values : List Rat) : List Rat :=
  let xs := sortedQ values
  ([0, 1, 2, 3, 4, 5] : List Rat).map fun j => quantileAt xs (j / 5)

/-- np.unique on an already sorted edge list: drop adjacent duplicates. -/
def dedupAdjacent : List Rat → List Rat
  | [] => []
  | [a] => [a]
  | a :: b :: t =>
      if a = b then dedupAdjacent (b :: t) else a :: dedupAdjacent (b :: t)

/-- The six `pd.cut(x, bins=5)` equal-width edges. -/
def cutEdges (values : List Rat) : List Rat :=
  let mn0 := values.foldr min (values.headD 0)
  let mx0 := values.foldr max (values.headD 0)
  let pad : Rat → Rat := fun x => if x = 0 then 1 / 1000 else |x| / 1000
  let mn := if mn0 = mx0 then mn0 - pad mn0 else mn0
  let mx := if mn0 = mx0 then mx0 + pad mx0 else mx0
  ([0, 1, 2, 3, 4, 5] : List Rat).map fun j => mn + j * (mx - mn) / 5

/-- Edge list a score column is binned with: the qcut edges when all six
survive deduplication, else (the source catches the ValueError) the five
equal-width cut bins. -/
def chooseEdges (values : List Rat) : List Rat :=
  let qe := dedupAdjacent (qcutEdges values)
  if qe.length = 6 then qe else cutEdges values

/-- Index of the bin (e_i, e_(i+1)] holding v: the number of interior
edges strictly below v. -/
def binIndex (edges : List Rat) (v : Rat) : Nat :=
  ((edges.drop 1).dropLast).countP fun e => decide (e < v)

/-- Score of one value of a column under the column-wide edges and the
five labels passed to qcut/cut. -/
def scoreWith (values : List Rat) (labels : List Int) (v : Rat) : Int :=
  labels.getD (binIndex (chooseEdges values) v) 0

/-- The per-customer metrics aggregated before scoring. -/
structure RfmBase where
  id_client : Int
  recency : Int
  frequency : Int
  monetary : Rat
deriving DecidableEq

/-- One row of the returned rfm frame. -/
structure RfmRow where
  id_client : Int
  recency : Int
  frequency : Int
  monetary : Rat
  r_score : Int
  f_score : Int
  m_score : Int
  segment : String
deriving DecidableEq

/-- The fixed first-match decision table of `assign_segment`
(rfm_segmentation.py, lines 63-81). -/
def assign_segment (r f m : Int) : String :=
  if r ≥ 4 ∧ f ≥ 4 ∧ m ≥ 4 then "Champions"
  else if r ≥ 3 ∧ f ≥ 3 ∧ m ≥ 3 then "Loyal"
  else if r ≥ 3 ∧ f ≤ 2 ∧ m ≥ 3 then "Potential Loyalist"
  else if r ≥ 4 ∧ f ≤ 2 ∧ m ≤ 2 then "New Customers"
  else if r ≤ 2 ∧ f ≥ 3 ∧ m ≥ 3 then "At Risk"
  else if r ≤ 2 ∧ f ≤ 2 ∧ m ≤ 2 then "Lost"
  else if r ≤ 2 ∧ f ≥ 3 ∧ m ≤ 2 then "Hibernating"
  else "Need Attention"

/-- `calculate_rfm_segmentation` (lines 7-83; the rfm detail frame —
the summary groupby at the end is not needed by any claim).  Recency is
`(reference_date - last_purchase).dt.days`; recency scores carry the
inverted labels [5,4,3,2,1], frequency and monetary the labels
[1,2,3,4,5]; every value of a column is binned with that column's
edges. -/
def calculate_rfm_segmentation (fact : List FactRow) (reference_date : Int) :
    List RfmRow :=
  let keys := sortedKeysInt (fact.map fun r => r.id_client)
  let base : List RfmBase := keys.map fun k =>
    let rows := fact.filter fun r => r.id_client = k
    { id_client := k
      recency := reference_date - maxD (rows.map fun r => toDays r.date_achat)
      frequency := rows.length
      monetary := (rows.map fun r => r.montant).sum }
  let recs := base.map fun b => (b.recency : Rat)
  let freqs := base.map fun b => (b.frequency : Rat)
  let mons := base.map fun b => b.monetary
  base.map fun b =>
    let r := scoreWith recs [5, 4, 3, 2, 1] (b.recency : Rat)
    let f := scoreWith freqs [1, 2, 3, 4, 5] (b.frequency : Rat)
    let m := scoreWith mons [1, 2, 3, 4, 5] b.monetary
    { id_client := b.id_client, recency := b.recency, frequency := b.frequency
      monetary := b.monetary, r_score := r, f_score := f, m_score := m
      segment := assign_segment r f m }

/-! ## Temporal aggregation by month
(src/flows/aggregations/time_aggregations.py, `aggregate_by_month`) -/

/-- One row of the month rollup (the columns the claims touch; the
nunique and date-range columns are aggregated the same way and carry no
algorithmic content). -/
structure MonthAgg where
  annee_mois : Int × Int
  ca_total : Rat
  nb_achats : Nat
  panier_moyen : Rat
  taux_croissance_mom : Rat
deriving DecidableEq

/-- The `(current - previous) / previous * 100` column produced by
`shift(1)` followed by `fillna(0)`: the first period (previous is NaN,
so the rate is NaN and is filled) gets 0, every later one the exact
formula.  (In the source a previous value of exactly 0 would make the
float quotient infinite; over the rationals x/0 = 0.  No claim touches
that corner.) -/
def growthAux (prev : Rat) : List Rat → List Rat
  | [] => []
  | t :: ts => (t - prev) / prev * 100 :: growthAux t ts

def growthRates : List Rat → List Rat
  | [] => []
  | t :: ts => 0 :: growthAux t ts

/-- The month key of a fact row: `annee_mois` = `dt.to_period('M')`. -/
def monthKey (r : FactRow) : Int × Int := (r.date_achat.y, r.date_achat.m)

/-- The chronologically sorted distinct month keys (`groupby` sorts the
keys and `sort_values('annee_mois')` sorts again; see `monthLe` for why
the string order is the chronological one). -/
def monthKeys (fact : List FactRow) : List (Int × Int) :=
  List.insertionSort monthLe ((fact.map monthKey).dedup)

/-- `aggregate_by_month` (lines 60-89): grouped sums/counts of montant
by `annee_mois`, then the chronologically sorted frame gets the
month-over-month growth column. -/
def aggregate_by_month (fact : List FactRow) : List MonthAgg :=
  let keys := monthKeys fact
  let totals := keys.map fun k =>
    ((fact.filter fun r => monthKey r = k).map fun r => r.montant).sum
  let counts := keys.map fun k => (fact.filter fun r => monthKey r = k).length
  let rates := growthRates totals
  (List.range keys.length).map fun i =>
    let t := totals.getD i 0
    let c := counts.getD i 0
    { annee_mois := keys.getD i (0, 0), ca_total := t, nb_achats := c
      panier_moyen := t / (c : Rat), taux_croissance_mom := rates.getD i 0 }

/-! ## Retention metrics
(src/flows/aggregations/retention_metrics.py) -/

/-- The status banding lambda (lines 36-42). -/
def statut (jours_inactivite : Int) : String :=
  if jours_inactivite ≤ 30 then "Actif"
  else if jours_inactivite ≤ 90 then "À risque"
  else if jours_inactivite ≤ 180 then "Inactif"
  else "Churn"

/-- One row of the retention detail frame. -/
structure RetentionRow where
  id_client : Int
  dernier_achat : Int
  jours_inactivite : Int
  nb_achats : Nat
  statut : String
  est_recurrent : Bool
deriving DecidableEq

/-- The per-customer part of `calculate_retention_metrics` (lines
19-45): last purchase, days of inactivity relative to the reference
time, purchase count, status band and the recurring flag.  The global
percentage metrics derived afterwards are not needed by any claim. -/
def calculate_retention_detail (fact : List FactRow) (reference_date : Int) :
    List RetentionRow :=
  let keys := sortedKeysInt (fact.map fun r => r.id_client)
  keys.map fun k =>
    let rows := fact.filter fun r => r.id_client = k
    let dernier := maxD (rows.map fun r => toDays r.date_achat)
    let jours := reference_date - dernier
    { id_client := k, dernier_achat := dernier, jours_inactivite := jours
      nb_achats := rows.length, statut := statut jours
      est_recurrent := decide (rows.length > 1) }

/-! ## Cohort analysis
(src/flows/aggregations/cohort_analysis.py) -/

/-- One row of the cohort revenue frame. -/
structure CohortRow where
  cohorte_mois : Int × Int
  mois_achat : Int × Int
  ca_total : Rat
  nb_clients : Nat
  nb_achats : Nat
  age_cohorte_mois : Int
deriving DecidableEq

/-- Lexicographic order on the (cohort month, purchase month) group
key, the order `groupby(['cohorte_mois', 'mois_achat'])` enumerates the
"YYYY-MM" string pairs in. -/
def cohortKeyLe (a b : (Int × Int) × (Int × Int)) : Prop :=
  (monthLe a.1 b.1 ∧ a.1 ≠ b.1) ∨ (a.1 = b.1 ∧ monthLe a.2 b.2)

instance : DecidableRel cohortKeyLe := fun a b => by
  unfold cohortKeyLe; infer_instance

/-- The cohort/purchase month pair of a fact row with a resolved signup
date (`to_period('M')` on both timestamps; the round-trip of the cohort
month through its "YYYY-MM" string and `pd.to_datetime` is the identity
on (year, month)). -/
def cohortKey (r : FactRow) : (Int × Int) × (Int × Int) :=
  let ins := r.date_inscription.getD ⟨0, 0, 0⟩
  ((ins.y, ins.m), (r.date_achat.y, r.date_achat.m))

/-- The `cohort_ca` frame of `calculate_cohort_analysis` (lines 17-51):
rows whose signup date did not resolve (`errors='coerce'` + `dropna`)
are removed, the rest are grouped by (cohort month, purchase month),
and the cohort age is `(year difference) * 12 + (month difference)`. -/
def calculate_cohort_ca (fact : List FactRow) : List CohortRow :=
  let wf := fact.filter fun r => r.date_inscription.isSome
  let keys := List.insertionSort cohortKeyLe ((wf.map cohortKey).dedup)
  keys.map fun k =>
    let rows := wf.filter fun r => cohortKey r = k
    { cohorte_mois := k.1, mois_achat := k.2
      ca_total := (rows.map fun r => r.montant).sum
      nb_clients := ((rows.map fun r => r.id_client).dedup).length
      nb_achats := rows.length
      age_cohorte_mois := (k.2.1 - k.1.1) * 12 + (k.2.2 - k.1.2) }

/-! ## Concentration metrics and the Gini coefficient
(src/flows/aggregations/concentration_metrics.py) -/

/-- Position-weighted sum `Σ index·value` with `index = arange(k, ...)`;
`rankSum 1 xs` is `np.sum(np.arange(1, n + 1) * xs)`. -/
def rankSum (k : Rat) : List Rat → Rat
  | [] => 0
  | x :: xs => k * x + rankSum (k + 1) xs

/-- `calculate_gini` (lines 41-46): over the ascending-sorted values,
`(2·Σ(rank·value)) / (n·Σvalue) - (n+1)/n`.  On an empty column the
trailing `(n+1)/n` is a Python integer division by zero, so the call
raises; that is the `none` case.  (With a nonempty all-zero column the
float code would return NaN from `0.0/0.0`; the rational embedding keeps
the x/0 = 0 convention there, a corner no claim evaluates.) -/
def calculate_gini (values : List Rat) : Option Rat :=
  let sorted := sortedQ values
  let n := sorted.length
  if n = 0 then none
  else some ((2 * rankSum 1 sorted) / ((n : Rat) * sorted.sum) - ((n : Rat) + 1) / (n : Rat))

/-- Cumulative sums of a list (`cumsum`). -/
def cumSum (acc : Rat) : List Rat → List Rat
  | [] => []
  | x :: xs => (acc + x) :: cumSum (acc + x) xs

/-- Revenue totals of one grouping column, sorted descending
(`groupby(col)['montant'].sum().sort_values(ascending=False)`). -/
def groupTotalsDesc {κ : Type} [DecidableEq κ] (key : FactRow → κ)
    (fact : List FactRow) : List Rat :=
  List.insertionSort (· ≥ ·)
    (((fact.map key).dedup).map fun k =>
      ((fact.filter fun r => key r = k).map fun r => r.montant).sum)

/-- The summary row of `calculate_concentration_metrics`. -/
structure ConcentrationSummary where
  indice_gini_clients : Rat
  indice_gini_pays : Rat
  indice_gini_produits : Rat
  pareto_20_pct_clients : Rat
  pct_ca_top_10_clients : Rat
  pct_ca_top_20_clients : Rat
  nb_clients_total : Nat
  nb_pays_total : Nat
  nb_produits_total : Nat
deriving DecidableEq

/-- `calculate_concentration_metrics` (lines 7-86), summary part.  The
three `calculate_gini` calls are unguarded, so the whole computation
raises (is `none`) whenever one of them does — in particular on an
empty fact table. -/
def calculate_concentration_metrics (fact : List FactRow) :
    Option ConcentrationSummary :=
  let clientCa := groupTotalsDesc (fun r => r.id_client) fact
  let countryCa := groupTotalsDesc (fun r => r.pays) fact
  let productCa := groupTotalsDesc (fun r => r.produit) fact
  let totalCa := clientCa.sum
  let nClients := clientCa.length
  let pareto80 := (cumSum 0 clientCa).filter fun c => decide (c / totalCa * 100 ≤ 80)
  let pareto20pct : Rat :=
    if nClients > 0 then (pareto80.length : Rat) / (nClients : Rat) * 100 else 0
  let top10 := nClients / 10
  let top20 := nClients / 5
  let caTop10 : Rat := if top10 > 0 then (clientCa.take top10).sum else 0
  let caTop20 : Rat := if top20 > 0 then (clientCa.take top20).sum else 0
  let pctTop10 : Rat := if totalCa > 0 then caTop10 / totalCa * 100 else 0
  let pctTop20 : Rat := if totalCa > 0 then caTop20 / totalCa * 100 else 0
  match calculate_gini clientCa, calculate_gini countryCa, calculate_gini productCa with
  | some g1, some g2, some g3 =>
      some { indice_gini_clients := g1, indice_gini_pays := g2
             indice_gini_produits := g3, pareto_20_pct_clients := pareto20pct
             pct_ca_top_10_clients := pctTop10, pct_ca_top_20_clients := pctTop20
             nb_clients_total := nClients, nb_pays_total := countryCa.length
             nb_produits_total := productCa.length }
  | _, _, _ => none

/-! ## Cluster-count selection (src/flows/ml/ml_models.py, `cluster_data`) -/

/-- `int(np.sqrt(len(df) / 2))`: the float square root of n/2 truncated
to an integer.  For a natural n this is the integer square root of
⌊n/2⌋, because an integer k satisfies k² ≤ n/2 over the reals exactly
when k² ≤ ⌊n/2⌋ (k² is an integer); the characterisation is proved in
the C9 theorem below. -/
def floorSqrtHalf (n : Nat) : Nat := Nat.sqrt (n / 2)

/-- Lines 80-82: `n_clusters = max(2, int(np.sqrt(len(df) / 2)))`
followed by `n_clusters = min(n_clusters, 10)`. -/
def autoClusterCount (n : Nat) : Nat := min (max 2 (floorSqrtHalf n)) 10

/-- The claim side, written from the spec words
`clamp(round(sqrt(n_rows / 2)), 2, 10)`: round-half-up of the square
root of n/2 (the square root of a half-integer is never exactly
half-odd, so round(x) = ⌊x + 1/2⌋, and rounding up happens exactly when
(2s+1)² ≤ 2n for s the floor of the root). -/
def roundSqrtHalf (n : Nat) : Nat :=
  let s := Nat.sqrt (n / 2)
  if (2 * s + 1) ^ 2 ≤ 2 * n then s + 1 else s

/-- Claim-side cluster count: `clamp(round(sqrt(n_rows/2)), 2, 10)`. -/
def claimClusterCount (n : Nat) : Nat := min (max 2 (roundSqrtHalf n)) 10

/-- The cluster count `cluster_data` ends up fitting with: `none` when
the function returns early (empty frame, or fewer than two numeric
columns — the `ml_cluster = 0` path trains nothing), otherwise the
explicit override or the automatic choice. -/
def cluster_data_n_clusters (n_rows numeric_cols : Nat)
    (n_clusters : Option Nat) : Option Nat :=
  if n_rows = 0 then none
  else if numeric_cols < 2 then none
  else some (n_clusters.getD (autoClusterCount n_rows))

/-- Zero row of the month rollup, used as the (never reached) `getD`
default in the statements below. -/
def month0 : MonthAgg := ⟨(0, 0), 0, 0, 0, 0⟩

/-- The three-month example table of the specification: monthly revenue
100, 150, 90. -/
def exFactC4 : List FactRow :=
  [⟨1, 1, ⟨2023, 1, 5⟩, none, 100, "a", "FR"⟩,
   ⟨2, 1, ⟨2023, 2, 5⟩, none, 150, "a", "FR"⟩,
   ⟨3, 1, ⟨2023, 3, 5⟩, none, 90, "a", "FR"⟩]

/-! ## Theorems -/

section
attribute [local semireducible] Rat.add Rat.mul Rat.sub Rat.inv Rat.ofScientific

/-- Banding behaviour of the retention status lambda. -/
theorem statut_bands (j : Int) :
    (statut j = "Actif" ↔ j ≤ 30) ∧
    (statut j = "À risque" ↔ 30 < j ∧ j ≤ 90) ∧
    (statut j = "Inactif" ↔ 90 < j ∧ j ≤ 180) ∧
    (statut j = "Churn" ↔ 180 < j) := by
  unfold statut
  split_ifs with h1 h2 h3 <;> refine ⟨?_, ?_, ?_, ?_⟩ <;> simp <;> omega

/-- C2 — code_bug.  The composite week key is built from the calendar
year `dt.year`, not from the ISO week-based year: 2022-01-01 lies in ISO
week 52 of ISO year 2021 (the code itself puts 52 in `semaine_annee`),
yet `annee_semaine` reads "2022-W52" instead of the "2021-W52" the
specification requires, misattributing exactly the year-boundary weeks
it warns about. -/
theorem annee_semaine_uses_calendar_year :
    annee_semaine ⟨2022, 1, 1⟩ = "2022-W52" ∧
    (isoWeekYear ⟨2022, 1, 1⟩ = (2021, 52) ∧
      annee_semaine_iso ⟨2022, 1, 1⟩ = "2021-W52") ∧
    annee_semaine ⟨2022, 1, 1⟩ ≠ annee_semaine_iso ⟨2022, 1, 1⟩ := by
  decide

/-- C5 — confirmed.  Every customer row of the retention detail is
banded by days of inactivity: `Actif` (the code's label for Active) iff
at most 30 days, `À risque` (At Risk) iff 31..90, `Inactif` (Inactive)
iff 91..180, `Churn` (Churned) otherwise; in particular exactly 30 days
is `Actif` and exactly 31 days is `À risque`. -/
theorem retention_status_banding (fact : List FactRow) (reference_date : Int) :
    (∀ e ∈ calculate_retention_detail fact reference_date,
      (e.statut = "Actif" ↔ e.jours_inactivite ≤ 30) ∧
      (e.statut = "À risque" ↔ 30 < e.jours_inactivite ∧ e.jours_inactivite ≤ 90) ∧
      (e.statut = "Inactif" ↔ 90 < e.jours_inactivite ∧ e.jours_inactivite ≤ 180) ∧
      (e.statut = "Churn" ↔ 180 < e.jours_inactivite)) ∧
    statut 30 = "Actif" ∧ statut 31 = "À risque" := by
  refine ⟨?_, by decide, by decide⟩
  intro e he
  unfold calculate_retention_detail at he
  simp only [List.mem_map] at he
  obtain ⟨k, _, rfl⟩ := he
  exact statut_bands _

/-- Witness for C5 at one concrete customer: a single purchase 30 days
before the reference time is banded `Actif`. -/
theorem retention_status_banding_witness :
    ((⟨7, 19358, 30, 1, "Actif", false⟩ : RetentionRow).statut = "Actif" ↔
      (⟨7, 19358, 30, 1, "Actif", false⟩ : RetentionRow).jours_inactivite ≤ 30) ∧
    ((⟨7, 19358, 30, 1, "Actif", false⟩ : RetentionRow).statut = "À risque" ↔
      30 < (⟨7, 19358, 30, 1, "Actif", false⟩ : RetentionRow).jours_inactivite ∧
        (⟨7, 19358, 30, 1, "Actif", false⟩ : RetentionRow).jours_inactivite ≤ 90) ∧
    ((⟨7, 19358, 30, 1, "Actif", false⟩ : RetentionRow).statut = "Inactif" ↔
      90 < (⟨7, 19358, 30, 1, "Actif", false⟩ : RetentionRow).jours_inactivite ∧
        (⟨7, 19358, 30, 1, "Actif", false⟩ : RetentionRow).jours_inactivite ≤ 180) ∧
    ((⟨7, 19358, 30, 1, "Actif", false⟩ : RetentionRow).statut = "Churn" ↔
      180 < (⟨7, 19358, 30, 1, "Actif", false⟩ : RetentionRow).jours_inactivite) :=
  (retention_status_banding [⟨1, 7, ⟨2023, 1, 1⟩, none, 50, "a", "FR"⟩] 19388).1
    ⟨7, 19358, 30, 1, "Actif", false⟩ (by decide)

/-- C6 — code_bug.  On an empty fact table `calculate_concentration_ -
metrics` does not return an empty, well-shaped result: its unguarded
`calculate_gini` call ends in the Python integer division `(n + 1) / n`
with `n = 0` and raises ZeroDivisionError (the `none` case of the
embedding). -/
theorem concentration_metrics_raise_on_empty :
    calculate_concentration_metrics [] = none ∧ calculate_gini [] = none := by
  decide

/-- C10 — corrected (amended form).  After the date coercion,
`standardize_dates` keeps exactly the rows whose timestamp parsed and is
not after the run time: a parsed row is dropped iff it is strictly in
the future, but a row whose timestamp failed to parse (NaT, which
compares False against every timestamp) is dropped as well, not
retained. -/
theorem standardize_dates_kept_rows (rows : List AchatRow) (today : Int)
    (r : AchatRow) :
    r ∈ standardize_dates rows today ↔
      r ∈ rows ∧ ∃ d, r.date_achat = some d ∧ d ≤ today := by
  unfold standardize_dates
  rw [List.mem_filter]
  cases h : r.date_achat <;> simp [h]

/-- Counterexample to C10 as stated: a lone row whose timestamp failed
to parse is not retained with a missing value — the cleaned table is
empty, although the row's date (being missing) is not strictly later
than the run time. -/
theorem standardize_dates_drops_unparseable :
    standardize_dates [⟨some 1, some 1, none, some 5, some "x"⟩] 100 = [] ∧
    (⟨some 1, some 1, none, some 5, some "x"⟩ : AchatRow) ∉
      standardize_dates [⟨some 1, some 1, none, some 5, some "x"⟩] 100 := by
  decide

/-- C9 — corrected (amended form).  With a non-empty frame, at least
two numeric columns and no override, `cluster_data` uses
`clamp(floor(sqrt(n_rows / 2)), 2, 10)` clusters — `int()` truncation,
not rounding.  The second conjunct certifies that `floorSqrtHalf` is
the floor of the real square root of n/2: it is the unique natural
whose square brackets n/2. -/
theorem cluster_count_is_floor_clamped (n c : Nat) (h1 : 1 ≤ n) (h2 : 2 ≤ c) :
    cluster_data_n_clusters n c none = some (min (max 2 (floorSqrtHalf n)) 10) ∧
    ((floorSqrtHalf n : Rat) ^ 2 ≤ (n : Rat) / 2 ∧
      (n : Rat) / 2 < ((floorSqrtHalf n : Rat) + 1) ^ 2) := by
  constructor
  · have hn : n ≠ 0 := by omega
    have hc : ¬ c < 2 := by omega
    simp [cluster_data_n_clusters, autoClusterCount, hn, hc]
  · have hs1 : Nat.sqrt (n / 2) ^ 2 ≤ n / 2 := Nat.sqrt_le' (n / 2)
    have hs2 : n / 2 < (Nat.sqrt (n / 2)).succ ^ 2 := Nat.lt_succ_sqrt' (n / 2)
    unfold floorSqrtHalf
    constructor
    · have h3 : 2 * Nat.sqrt (n / 2) ^ 2 ≤ n := by
        revert hs1
        generalize Nat.sqrt (n / 2) ^ 2 = X
        intro hs1
        omega
      have h4 : ((2 * Nat.sqrt (n / 2) ^ 2 : Nat) : Rat) ≤ (n : Rat) := by
        exact_mod_cast h3
      push_cast at h4
      linarith
    · have h5 : n < 2 * (Nat.sqrt (n / 2)).succ ^ 2 := by
        revert hs2
        generalize (Nat.sqrt (n / 2)).succ ^ 2 = X
        intro hs2
        omega
      have h6 : ((n : Nat) : Rat) < ((2 * (Nat.sqrt (n / 2)).succ ^ 2 : Nat) : Rat) := by
        exact_mod_cast h5
      push_cast at h6
      linarith

/-- Witness for C9 (amended) at n_rows = 13 with two numeric columns. -/
theorem cluster_count_is_floor_clamped_witness :
    (cluster_data_n_clusters 13 2 none = some (min (max 2 (floorSqrtHalf 13)) 10) ∧
      ((floorSqrtHalf 13 : Rat) ^ 2 ≤ (13 : Rat) / 2 ∧
        (13 : Rat) / 2 < ((floorSqrtHalf 13 : Rat) + 1) ^ 2)) :=
  cluster_count_is_floor_clamped 13 2 (by norm_num) (by norm_num)

/-- Counterexample to C9 as stated: at 13 rows the code fits
max(2, int(sqrt(6.5))) = 2 clusters, while the claimed
clamp(round(sqrt(6.5)), 2, 10) is 3 (sqrt(6.5) is about 2.55). -/
theorem cluster_count_not_round :
    cluster_data_n_clusters 13 2 none = some 2 ∧ claimClusterCount 13 = 3 := by
  constructor
  · simp [cluster_data_n_clusters, autoClusterCount, floorSqrtHalf, Nat.sqrt,
      Nat.sqrt.iter]
  · simp [claimClusterCount, roundSqrtHalf, Nat.sqrt, Nat.sqrt.iter]

/-- First-occurrence deduplication yields pairwise distinct keys, none
of which was already seen. -/
theorem removeDuplicatesBy_invariant {α κ : Type} [DecidableEq κ] (key : α → κ) :
    ∀ (l : List α) (seen : List κ),
      (removeDuplicatesBy key l seen).Pairwise (fun a b => key a ≠ key b) ∧
      ∀ a ∈ removeDuplicatesBy key l seen, key a ∉ seen := by
  intro l
  induction l with
  | nil => intro seen; simp [removeDuplicatesBy]
  | cons a t ih =>
    intro seen
    unfold removeDuplicatesBy
    split_ifs with h
    · exact ih seen
    · obtain ⟨hp, hmem⟩ := ih (key a :: seen)
      refine ⟨List.Pairwise.cons ?_ hp, ?_⟩
      · intro b hb heq
        exact hmem b hb (heq ▸ List.mem_cons_self _ _)
      · intro x hx
        rcases List.mem_cons.mp hx with rfl | hx1
        · exact h
        · exact fun hxs => hmem x hx1 (List.mem_cons_of_mem _ hxs)

/-- C1 — confirmed.  For every raw purchases table and supplied set of
valid customer ids, `clean_achats_data` returns a table with pairwise
distinct `id_achat`, every `montant` in (0, 10000], and every
`id_client` a member of the supplied set. -/
theorem clean_achats_data_invariants (rows : List AchatRow) (ids : List Int)
    (today : Int) :
    (clean_achats_data rows (some ids) today).Pairwise
      (fun a b => a.id_achat ≠ b.id_achat) ∧
    ∀ r ∈ clean_achats_data rows (some ids) today,
      (∃ m, r.montant = some m ∧ 0 < m ∧ m ≤ 10000) ∧
      ∃ c, r.id_client = some c ∧ c ∈ ids := by
  constructor
  · have h2 := (removeDuplicatesBy_invariant (fun r : AchatRow => r.id_achat)
      rows []).1
    unfold clean_achats_data standardize_dates dropCriticalNulls
    refine List.pairwise_map.mpr ?_
    exact ((((h2.sublist (List.filter_sublist _)).sublist
      (List.filter_sublist _)).sublist
      (List.filter_sublist _)).sublist (List.filter_sublist _))
  · intro r hr
    unfold clean_achats_data at hr
    simp only [List.mem_map, List.mem_filter] at hr
    obtain ⟨x, ⟨⟨_, hm⟩, hc⟩, rfl⟩ := hr
    constructor
    · rcases hx : x.montant with _ | m
      · rw [hx] at hm; simp at hm
      · rw [hx] at hm
        simp only [Bool.and_eq_true, decide_eq_true_eq] at hm
        exact ⟨m, rfl, hm.1, hm.2⟩
    · rcases hx : x.id_client with _ | c
      · rw [hx] at hc; simp at hc
      · rw [hx] at hc
        simp only [decide_eq_true_eq] at hc
        exact ⟨c, rfl, hc⟩

/-- Witness for C1: the scratch seven-row raw table against the valid
ids {7, 8} keeps a single row, on which the guarantees are evaluated. -/
theorem clean_achats_data_invariants_witness :
    (∃ m, (⟨some 1, some 7, some 100, some 50, some "UNKNOWN"⟩ : AchatRow).montant
        = some m ∧ 0 < m ∧ m ≤ 10000) ∧
    ∃ c, (⟨some 1, some 7, some 100, some 50, some "UNKNOWN"⟩ : AchatRow).id_client
        = some c ∧ c ∈ [7, 8] :=
  (clean_achats_data_invariants
    [⟨some 1, some 7, some 100, some 50, none⟩,
     ⟨some 1, some 7, some 100, some 60, some "b"⟩,
     ⟨some 2, some 9, some 100, some 60, some "b"⟩]
    [7, 8] 200).2
    ⟨some 1, some 7, some 100, some 50, some "UNKNOWN"⟩ (by decide)

/-- C8 — confirmed.  Cohort analysis first drops every purchase row
without a resolvable signup date (so those rows contribute to no group),
and the cohort age of every output row is the month-index difference
(purchase year × 12 + purchase month) − (cohort year × 12 + cohort
month); a 2023-01 signup purchasing in 2023-04 has age 3. -/
theorem cohort_age_is_month_difference (fact : List FactRow) :
    calculate_cohort_ca fact
      = calculate_cohort_ca (fact.filter fun r => r.date_inscription.isSome) ∧
    (∀ e ∈ calculate_cohort_ca fact,
      e.age_cohorte_mois
        = (e.mois_achat.1 * 12 + e.mois_achat.2)
          - (e.cohorte_mois.1 * 12 + e.cohorte_mois.2)) ∧
    calculate_cohort_ca [⟨1, 1, ⟨2023, 4, 15⟩, some ⟨2023, 1, 20⟩, 50, "p", "FR"⟩]
      = [⟨(2023, 1), (2023, 4), 50, 1, 1, 3⟩] := by
  refine ⟨?_, ?_, by decide⟩
  · unfold calculate_cohort_ca
    rw [List.filter_filter]
    simp
  · intro e he
    unfold calculate_cohort_ca at he
    simp only [List.mem_map] at he
    obtain ⟨k, _, rfl⟩ := he
    simp only
    ring

/-- Witness for C8 on the one-row example table. -/
theorem cohort_age_is_month_difference_witness :
    (⟨(2023, 1), (2023, 4), 50, 1, 1, 3⟩ : CohortRow).age_cohorte_mois
      = ((⟨(2023, 1), (2023, 4), 50, 1, 1, 3⟩ : CohortRow).mois_achat.1 * 12
          + (⟨(2023, 1), (2023, 4), 50, 1, 1, 3⟩ : CohortRow).mois_achat.2)
        - ((⟨(2023, 1), (2023, 4), 50, 1, 1, 3⟩ : CohortRow).cohorte_mois.1 * 12
          + (⟨(2023, 1), (2023, 4), 50, 1, 1, 3⟩ : CohortRow).cohorte_mois.2) :=
  (cohort_age_is_month_difference
    [⟨1, 1, ⟨2023, 4, 15⟩, some ⟨2023, 1, 20⟩, 50, "p", "FR"⟩]).2.1
    ⟨(2023, 1), (2023, 4), 50, 1, 1, 3⟩ (by decide)

theorem growthAux_length (l : List Rat) : ∀ p : Rat, (growthAux p l).length = l.length := by
  induction l with
  | nil => intro p; rfl
  | cons t ts ih => intro p; simp [growthAux, ih]

theorem growthRates_length (l : List Rat) : (growthRates l).length = l.length := by
  cases l with
  | nil => rfl
  | cons t ts => simp [growthRates, growthAux_length]

theorem growthAux_getD (l : List Rat) : ∀ (p : Rat) (i : Nat), i < l.length →
    (growthAux p l).getD i 0
      = (l.getD i 0 - (p :: l).getD i 0) / (p :: l).getD i 0 * 100 := by
  induction l with
  | nil => intro p i h; simp at h
  | cons t ts ih =>
    intro p i h
    cases i with
    | zero => rfl
    | succ j =>
      have hj : j < ts.length := by simpa using h
      simpa [growthAux] using ih t j hj

theorem growthRates_getD_zero (l : List Rat) (h : l ≠ []) :
    (growthRates l).getD 0 0 = 0 := by
  cases l with
  | nil => exact absurd rfl h
  | cons t ts => rfl

theorem growthRates_getD_succ (l : List Rat) (i : Nat) (h : i + 1 < l.length) :
    (growthRates l).getD (i + 1) 0
      = (l.getD (i + 1) 0 - l.getD i 0) / l.getD i 0 * 100 := by
  cases l with
  | nil => simp at h
  | cons t ts =>
    have hi : i < ts.length := by simpa using h
    simpa [growthRates] using growthAux_getD ts t i hi

theorem getD_map_range {β : Type} (n i : Nat) (f : Nat → β) (d : β) (h : i < n) :
    ((List.range n).map f).getD i d = f i := by
  rw [List.getD_eq_getElem?_getD, List.getElem?_map, List.getElem?_range h]
  rfl

/-- C4 — confirmed.  In the chronologically sorted month rollup the
growth column is 0 on the first month and
(current − previous) / previous × 100 on every later month; on the
specification's example series [100, 150, 90] the rates are
[0, 50, −40]. -/
theorem month_growth_rate_formula (fact : List FactRow) :
    ((aggregate_by_month fact).length = (monthKeys fact).length) ∧
    (0 < (aggregate_by_month fact).length →
      ((aggregate_by_month fact).getD 0 month0).taux_croissance_mom = 0) ∧
    (∀ i, i + 1 < (aggregate_by_month fact).length →
      ((aggregate_by_month fact).getD (i + 1) month0).taux_croissance_mom
        = (((aggregate_by_month fact).getD (i + 1) month0).ca_total
            - ((aggregate_by_month fact).getD i month0).ca_total)
          / ((aggregate_by_month fact).getD i month0).ca_total * 100) ∧
    (aggregate_by_month exFactC4).map (fun e => e.taux_croissance_mom)
      = [0, 50, -40] := by
  have hlen : (aggregate_by_month fact).length = (monthKeys fact).length := by
    simp [aggregate_by_month]
  have htot : ((monthKeys fact).map fun k =>
      ((fact.filter fun r => monthKey r = k).map fun r => r.montant).sum).length
        = (monthKeys fact).length := by
    simp
  refine ⟨hlen, ?_, ?_, by decide⟩
  · intro h0
    rw [hlen] at h0
    simp only [aggregate_by_month]
    rw [getD_map_range _ 0 _ _ h0]
    dsimp only
    apply growthRates_getD_zero
    intro hnil
    rw [hnil] at htot
    simp at htot
    omega
  · intro i hi
    rw [hlen] at hi
    simp only [aggregate_by_month]
    rw [getD_map_range _ (i + 1) _ _ hi, getD_map_range _ i _ _ (by omega)]
    dsimp only
    exact growthRates_getD_succ _ i (by rw [htot]; exact hi)

/-- Witness for C4: on the example table, the second month's growth rate
equals the formula over the first two monthly totals. -/
theorem month_growth_rate_formula_witness :
    ((aggregate_by_month exFactC4).getD 1 month0).taux_croissance_mom
      = (((aggregate_by_month exFactC4).getD 1 month0).ca_total
          - ((aggregate_by_month exFactC4).getD 0 month0).ca_total)
        / ((aggregate_by_month exFactC4).getD 0 month0).ca_total * 100 :=
  (month_growth_rate_formula exFactC4).2.2.1 0 (by decide)

theorem chooseEdges_length (values : List Rat) : (chooseEdges values).length = 6 := by
  simp only [chooseEdges]
  split
  next h => exact h
  next => simp [cutEdges]

theorem binIndex_lt_five (edges : List Rat) (h : edges.length = 6) (v : Rat) :
    binIndex edges v < 5 := by
  unfold binIndex
  have hle := List.countP_le_length (fun e => decide (e < v))
      (l := (edges.drop 1).dropLast)
  have hlen : ((edges.drop 1).dropLast).length = 4 := by
    simp [List.length_dropLast, List.length_drop, h]
  omega

/-- Whatever the column looks like, a score is always one of the five
labels handed to qcut/cut, because both edge lists have six edges and
the bin index is a count over the four interior ones. -/
theorem scoreWith_mem (values : List Rat) (labels : List Int) (v : Rat)
    (h : labels.length = 5) : scoreWith values labels v ∈ labels := by
  unfold scoreWith
  have hlt : binIndex (chooseEdges values) v < labels.length := by
    rw [h]; exact binIndex_lt_five _ (chooseEdges_length values) v
  rw [List.getD_eq_getElem labels 0 hlt]
  exact List.getElem_mem hlt

/-- C3 — confirmed.  Every customer of the RFM output carries R, F and M
scores drawn from {1,..,5}, and its segment is exactly the first-match
evaluation of the fixed `assign_segment` rule sequence on those scores;
the boundary triples evaluate to Champions, Lost and New Customers. -/
theorem rfm_scores_in_range_and_segment (fact : List FactRow)
    (reference_date : Int) (_hne : fact ≠ []) :
    (∀ e ∈ calculate_rfm_segmentation fact reference_date,
      e.r_score ∈ ([1, 2, 3, 4, 5] : List Int) ∧
      e.f_score ∈ ([1, 2, 3, 4, 5] : List Int) ∧
      e.m_score ∈ ([1, 2, 3, 4, 5] : List Int) ∧
      e.segment = assign_segment e.r_score e.f_score e.m_score) ∧
    assign_segment 5 5 5 = "Champions" ∧
    assign_segment 1 1 1 = "Lost" ∧
    assign_segment 5 1 1 = "New Customers" := by
  refine ⟨?_, by decide, by decide, by decide⟩
  intro e he
  simp only [calculate_rfm_segmentation, List.mem_map] at he
  obtain ⟨b, _, rfl⟩ := he
  dsimp only
  have himp : ∀ x ∈ ([5, 4, 3, 2, 1] : List Int), x ∈ ([1, 2, 3, 4, 5] : List Int) := by
    decide
  exact ⟨himp _ (scoreWith_mem _ _ _ rfl), scoreWith_mem _ _ _ rfl,
    scoreWith_mem _ _ _ rfl, rfl⟩

/-- Witness for C3: the one-customer table (one 50-unit purchase, ten
days before the reference time) scores (3, 3, 3) — all bands inside
{1,..,5} — and its segment is the first-match result on them. -/
theorem rfm_scores_in_range_and_segment_witness :
    ((⟨10, 10, 1, 50, 3, 3, 3, "Loyal"⟩ : RfmRow).r_score
        ∈ ([1, 2, 3, 4, 5] : List Int)) ∧
    ((⟨10, 10, 1, 50, 3, 3, 3, "Loyal"⟩ : RfmRow).f_score
        ∈ ([1, 2, 3, 4, 5] : List Int)) ∧
    ((⟨10, 10, 1, 50, 3, 3, 3, "Loyal"⟩ : RfmRow).m_score
        ∈ ([1, 2, 3, 4, 5] : List Int)) ∧
    (⟨10, 10, 1, 50, 3, 3, 3, "Loyal"⟩ : RfmRow).segment
      = assign_segment (⟨10, 10, 1, 50, 3, 3, 3, "Loyal"⟩ : RfmRow).r_score
          (⟨10, 10, 1, 50, 3, 3, 3, "Loyal"⟩ : RfmRow).f_score
          (⟨10, 10, 1, 50, 3, 3, 3, "Loyal"⟩ : RfmRow).m_score :=
  (rfm_scores_in_range_and_segment [⟨1, 10, ⟨2023, 1, 1⟩, none, 50, "a", "FR"⟩]
    19368 (by decide)).1 ⟨10, 10, 1, 50, 3, 3, 3, "Loyal"⟩ (by decide)

theorem sorted_le_replicate (n : Nat) (v : Rat) :
    List.Sorted (· ≤ ·) (List.replicate n v) := by
  rw [List.Sorted, List.pairwise_replicate]
  exact Or.inr le_rfl

theorem rankSum_replicate (n : Nat) (v : Rat) : ∀ k : Rat,
    rankSum k (List.replicate n v)
      = (n : Rat) * k * v + v * ((n : Rat) * ((n : Rat) - 1)) / 2 := by
  induction n with
  | zero => intro k; simp [rankSum]
  | succ m ih =>
    intro k
    rw [List.replicate_succ]
    show k * v + rankSum (k + 1) (List.replicate m v) = _
    rw [ih (k + 1)]
    push_cast
    ring

theorem rankSum_append (l1 : List Rat) : ∀ (l2 : List Rat) (k : Rat),
    rankSum k (l1 ++ l2) = rankSum k l1 + rankSum (k + (l1.length : Rat)) l2 := by
  induction l1 with
  | nil => intro l2 k; simp [rankSum]
  | cons a t ih =>
    intro l2 k
    calc rankSum k ((a :: t) ++ l2)
        = k * a + rankSum (k + 1) (t ++ l2) := rfl
      _ = k * a + (rankSum (k + 1) t + rankSum ((k + 1) + (t.length : Rat)) l2) := by
            rw [ih]
      _ = (k * a + rankSum (k + 1) t) + rankSum (k + ((t.length : Rat) + 1)) l2 := by
            have harg : (k + 1) + (t.length : Rat) = k + ((t.length : Rat) + 1) := by
              ring
            rw [harg]; ring
      _ = rankSum k (a :: t) + rankSum (k + ((a :: t).length : Rat)) l2 := by
            have hlen : (((a :: t).length : Nat) : Rat) = (t.length : Rat) + 1 := by
              push_cast [List.length_cons]; ring
            rw [hlen]
            rfl

theorem sortedQ_replicate (n : Nat) (v : Rat) :
    sortedQ (List.replicate n v) = List.replicate n v :=
  List.Sorted.insertionSort_eq (sorted_le_replicate n v)

theorem sorted_le_concentrated (m : Nat) (v : Rat) (hv : 0 ≤ v) :
    List.Sorted (· ≤ ·) (List.replicate m 0 ++ [v]) := by
  rw [List.Sorted, List.pairwise_append]
  refine ⟨sorted_le_replicate m 0, List.pairwise_singleton _ _, ?_⟩
  intro a ha b hb
  rw [List.eq_of_mem_replicate ha, List.mem_singleton.mp hb]
  exact hv

theorem sortedQ_concentrated (m : Nat) (v : Rat) (hv : 0 ≤ v) :
    sortedQ (v :: List.replicate m 0) = List.replicate m 0 ++ [v] := by
  have hperm : List.Perm (sortedQ (v :: List.replicate m 0))
      (List.replicate m 0 ++ [v]) :=
    (List.perm_insertionSort _ _).trans (List.perm_append_singleton _ _).symm
  have hs1 : List.Sorted (· ≤ ·) (sortedQ (v :: List.replicate m 0)) :=
    List.sorted_insertionSort _ _
  exact List.eq_of_perm_of_sorted hperm hs1 (sorted_le_concentrated m v hv)

/-- C7 — confirmed (for revenue values, hence a positive amount).  The
Gini coefficient of `calculate_gini` is the prescribed closed form over
the ascending-sorted values (the group totals enter it only through
their sorted order, count and sum); consequently n equal positive values
give exactly 0 and one entity holding all the (positive) value among n
gives exactly (n − 1)/n. -/
theorem gini_closed_form_and_extremes (n : Nat) (v : Rat) (hn : 1 ≤ n)
    (hv : 0 < v) :
    calculate_gini (List.replicate n v) = some 0 ∧
    calculate_gini (v :: List.replicate (n - 1) 0)
      = some (((n : Rat) - 1) / (n : Rat)) ∧
    ∀ values : List Rat, values ≠ [] →
      calculate_gini values
        = some ((2 * rankSum 1 (sortedQ values))
            / ((values.length : Rat) * values.sum)
            - ((values.length : Rat) + 1) / (values.length : Rat)) := by
  have hn0 : (n : Rat) ≠ 0 := by
    have : (0 : Rat) < (n : Rat) := by exact_mod_cast hn
    linarith
  have hv0 : v ≠ 0 := ne_of_gt hv
  refine ⟨?_, ?_, ?_⟩
  · simp only [calculate_gini, sortedQ_replicate, List.length_replicate,
      List.sum_replicate, nsmul_eq_mul]
    rw [if_neg (by omega)]
    rw [rankSum_replicate]
    congr 1
    field_simp
    ring
  · have hm : n - 1 + 1 = n := by omega
    have hcast : ((n - 1 : Nat) : Rat) = (n : Rat) - 1 :=
      Nat.cast_sub (by omega)
    have hS : rankSum 1 (List.replicate (n - 1) (0 : Rat) ++ [v]) = (n : Rat) * v := by
      rw [rankSum_append, rankSum_replicate]
      simp only [rankSum, List.length_replicate, hcast]
      ring
    have hlen2 : (List.replicate (n - 1) (0 : Rat) ++ [v]).length = n := by
      simp [hm]
    have hsum2 : (List.replicate (n - 1) (0 : Rat) ++ [v]).sum = v := by
      simp
    simp only [calculate_gini, sortedQ_concentrated (n - 1) v (le_of_lt hv),
      hlen2, hsum2, hS]
    have hcond : ¬ (n = 0) := by omega
    rw [if_neg hcond]
    congr 1
    field_simp
    ring
  · intro values hvne
    have hlen : (sortedQ values).length = values.length :=
      (List.perm_insertionSort _ _).length_eq
    have hsum : (sortedQ values).sum = values.sum :=
      (List.perm_insertionSort _ _).sum_eq
    simp only [calculate_gini, hlen, hsum]
    rw [if_neg (by simpa [List.length_eq_zero] using hvne)]

/-- Witness for C7: three equal revenues give Gini 0, and the closed
form holds at the two-value column [1, 2]. -/
theorem gini_closed_form_and_extremes_witness :
    calculate_gini (List.replicate 3 (5 : Rat)) = some 0 ∧
    calculate_gini [(1 : Rat), 2]
      = some ((2 * rankSum 1 (sortedQ [(1 : Rat), 2]))
          / ((([(1 : Rat), 2] : List Rat).length : Rat) * ([(1 : Rat), 2] : List Rat).sum)
          - ((([(1 : Rat), 2] : List Rat).length : Rat) + 1)
            / (([(1 : Rat), 2] : List Rat).length : Rat)) :=
  ⟨(gini_closed_form_and_extremes 3 5 (by norm_num) (by norm_num)).1,
   (gini_closed_form_and_extremes 3 5 (by norm_num) (by norm_num)).2.2
     [(1 : Rat), 2] (by decide)⟩

end

end Pipeline

